import Mathlib

/-!
Verification of the JWT authentication/authorization core of a multi-user
todo backend (FastAPI + PyJWT + SQLModel), shallowly embedded in Lean 4.

Embedding conventions:
* Python `str` values used for character-level parsing (the Authorization
  header) are modelled as `List Char`; identifiers, titles, secrets are
  modelled as Lean `String`.
* The JWT library (`jwt.decode`) is external; we model a compact token in
  ideal-cryptography style: the token records the algorithm named in its
  header and the secret it was signed with, and signature verification
  succeeds exactly when the configured secret matches (`signedWith = secret`)
  and the declared algorithm is in the allowed list, per the PyJWT contract
  invoked by the source (`jwt.decode(token, secret, algorithms=["HS256"])`,
  default `leeway=0`).
* Database sessions are modelled by explicit state passing: the table of
  tasks is a `List Task`; `select(...).where(...).first()` is `List.find?`,
  `.all()` is `List.filter`; `datetime.utcnow()` and the autoincrement id
  are explicit `now` / `nextId` parameters.
* `fastapi.HTTPException` is an `Except HttpError` result; `HttpError`
  records status code, detail string, and whether the
  `WWW-Authenticate: Bearer` header is attached.
-/

/-- Transport-level error: models `fastapi.HTTPException(status_code, detail,
headers)`; `wwwAuth` records presence of the `WWW-Authenticate: Bearer` header. -/
structure HttpError where
  status : Nat
  detail : String
  wwwAuth : Bool
deriving DecidableEq, Repr

/-- Decoded JWT in ideal-cryptography style: `signedWith` is the secret the
issuer used, `alg` the algorithm named in the token header; the remaining
fields are the payload claims the source reads (`sub`, `email`, `exp`, `iat`). -/
structure Token where
  signedWith : String
  alg : String
  sub : Option String
  email : Option String
  exp : Option Int
  iat : Option Int
deriving DecidableEq, Repr

/-- Failure modes of `jwt.decode` relevant to the source: bad algorithm,
bad signature, expired `exp` claim (all subclasses of `InvalidTokenError`). -/
inductive JwtError where
  | invalidAlgorithm
  | invalidSignature
  | expiredSignature
deriving DecidableEq, Repr

/-- `str(e)` for the PyJWT exceptions modelled by `JwtError`. -/
def jwtErrMsg : JwtError → String
  | .invalidAlgorithm => "The specified alg value is not allowed"
  | .invalidSignature => "Signature verification failed"
  | .expiredSignature => "Signature has expired"

/-- Model of `jwt.decode(token, secret, algorithms=algorithms)` with leeway
`leeway` evaluated at time `now`: PyJWT first checks the declared algorithm
against the allow-list, then the signature, then validates `exp`
(raising when `exp <= now - leeway`); a missing `exp` is not checked.
On success the decoded payload (here: the token's claim fields) is returned. -/
def jwtDecode (tok : Token) (secret : String) (algorithms : List String)
    (leeway : Int) (now : Int) : Except JwtError Token :=
  if tok.alg ∉ algorithms then
    .error .invalidAlgorithm
  else if tok.signedWith ≠ secret then
    .error .invalidSignature
  else
    match tok.exp with
    | some e => if e ≤ now - leeway then .error .expiredSignature else .ok tok
    | none => .ok tok

/- ### Authorization-header parsing (dependencies/auth.py lines 28–42 and
middleware/auth.py lines 23–31), at character level. -/

/-- The literal prefix `"Bearer "` checked by `authorization.startswith("Bearer ")`. -/
def bearerMarker : List Char := ['B', 'e', 'a', 'r', 'e', 'r', ' ']

/-- Python `s.startswith(pre)`. -/
def listStartsWith (pre s : List Char) : Bool := pre.isPrefixOf s

/-- Python `authorization.replace("Bearer ", "")`: removes every
non-overlapping occurrence of `"Bearer "`, scanning left to right. -/
def replaceBearer : List Char → List Char
  | 'B' :: 'e' :: 'a' :: 'r' :: 'e' :: 'r' :: ' ' :: rest => replaceBearer rest
  | c :: rest => c :: replaceBearer rest
  | [] => []

/-- Whitespace characters stripped by Python `str.strip()` / split by
`str.split()` (ASCII subset: space, tab, LF, VT, FF, CR). -/
def isPySpace (c : Char) : Bool :=
  c == ' ' || c == '\t' || c == '\n' || c == Char.ofNat 11 || c == Char.ofNat 12 || c == '\r'

/-- Python `s.strip()`: drop whitespace from both ends. -/
def pyStrip (s : List Char) : List Char :=
  ((s.dropWhile isPySpace).reverse.dropWhile isPySpace).reverse

/-- Does `s` contain an occurrence of `"Bearer "`? (Helper for reasoning
about `replaceBearer`; not part of the source.) -/
def containsBearer : List Char → Bool
  | [] => false
  | c :: rest => bearerMarker.isPrefixOf (c :: rest) || containsBearer rest

/-- Header-format error raised by `get_current_user_id` (auth.py line 29). -/
def malformedHeaderErr : HttpError :=
  ⟨401, "Invalid authorization header format. Expected 'Bearer <token>'", true⟩

/-- Empty-token error raised by `get_current_user_id` (auth.py line 38). -/
def emptyTokenErr : HttpError := ⟨401, "Token not provided", true⟩

/-- Token extraction of `get_current_user_id` (auth.py lines 28–42):
require the exact, case-sensitive prefix `"Bearer "`, then take the header
with every `"Bearer "` occurrence removed and whitespace stripped;
reject an empty remainder. -/
def extract_token (authorization : List Char) : Except HttpError (List Char) :=
  if listStartsWith bearerMarker authorization then
    let token := pyStrip (replaceBearer authorization)
    if token = [] then .error emptyTokenErr else .ok token
  else
    .error malformedHeaderErr

/-- Python `s.split(" ")`: split on single space characters, keeping empty
fields (so consecutive spaces yield empty strings). -/
def splitOnSpace : List Char → List (List Char)
  | [] => [[]]
  | c :: rest =>
    match splitOnSpace rest with
    | [] => [[c]]
    | g :: gs => if c == ' ' then [] :: g :: gs else (c :: g) :: gs

/-- Header error raised by `JWTMiddleware.dispatch` (middleware/auth.py
line 26); FastAPI attaches no `WWW-Authenticate` header there. -/
def mwHeaderErr : HttpError := ⟨401, "Missing or invalid Authorization header", false⟩

/-- Token extraction of `JWTMiddleware.dispatch` (middleware/auth.py lines
23–31): absent header or header without the exact `"Bearer "` prefix is a
401; otherwise the token is `auth_header.split(" ")[1]`. -/
def middleware_extract (authHeader : Option (List Char)) : Except HttpError (List Char) :=
  match authHeader with
  | none => .error mwHeaderErr
  | some s =>
    if listStartsWith bearerMarker s then
      .ok (((splitOnSpace s).drop 1).headD [])
    else
      .error mwHeaderErr

/- ### Spec-side definitions for the header grammar (refinement target for C4).
These follow the specification's words, not the source. -/

/-- Spec-side: the maximal whitespace-separated tokens of `s`
(Python `s.split()` with no argument). -/
def wsTokens : List Char → List (List Char)
  | [] => []
  | c :: rest =>
    if isPySpace c then wsTokens rest
    else
      match rest with
      | [] => [[c]]
      | d :: _ =>
        if isPySpace d then
          [c] :: wsTokens rest
        else
          match wsTokens rest with
          | [] => [[c]]
          | g :: gs => (c :: g) :: gs

/-- Spec-side: case-insensitive equality on character lists. -/
def charsEqCI (a b : List Char) : Bool :=
  (a.map Char.toLower) == (b.map Char.toLower)

/-- Spec-side, modelling the specification's header grammar: a header is
well-formed when it consists of exactly two whitespace-separated tokens and
the first matches the scheme `Bearer` case-insensitively. -/
def specWellFormedBearer (s : List Char) : Bool :=
  match wsTokens s with
  | [scheme, _] => charsEqCI scheme ['B', 'e', 'a', 'r', 'e', 'r']
  | _ => false

/-- Spec-side: the token of a well-formed header is its second
whitespace-separated token. -/
def specSecondToken (s : List Char) : Option (List Char) :=
  ((wsTokens s).drop 1).head?

/- ### Token verification and the Access Guard (dependencies/auth.py). -/

/-- Error for a payload whose `sub` claim is absent or falsy
(auth.py lines 62–67). -/
def missingSubErr : HttpError := ⟨401, "Token missing 'sub' claim (user ID)", true⟩

/-- 401 produced when `jwt.decode` raises `InvalidTokenError`
(auth.py lines 71–76): detail interpolates `str(e)`. -/
def invalidTokenErr (e : JwtError) : HttpError :=
  ⟨401, "Invalid or expired token: " ++ jwtErrMsg e, true⟩

/-- 500 raised when `BETTER_AUTH_SECRET` is unset (auth.py lines 47–51). -/
def noSecretErr : HttpError :=
  ⟨500, "Server configuration error: BETTER_AUTH_SECRET not set", false⟩

/-- Core of `get_current_user_id` (auth.py lines 53–76): decode with the
configured secret, algorithms pinned to `["HS256"]` and PyJWT's default
leeway `0`; then read `payload.get("sub")` and reject a missing or empty
(falsy) subject; on success return the user id. -/
def verify_token_payload (tok : Token) (secret : String) (now : Int) :
    Except HttpError String :=
  match jwtDecode tok secret ["HS256"] 0 now with
  | .error e => .error (invalidTokenErr e)
  | .ok payload =>
    match payload.sub with
    | none => .error missingSubErr
    | some uid => if uid = "" then .error missingSubErr else .ok uid

/-- `get_current_user_id` (auth.py lines 14–76) end to end: header parsing,
configured-secret check, then decode and subject extraction. The base64/JSON
deserialization of the compact token string is external; it is passed as
`deserialize`, with `none` standing for PyJWT's `DecodeError`
(an `InvalidTokenError`, also mapped to 401 by lines 71–76). -/
def get_current_user_id (authorization : List Char)
    (deserialize : List Char → Option Token) (secret : Option String)
    (now : Int) : Except HttpError String :=
  match extract_token authorization with
  | .error e => .error e
  | .ok tokenStr =>
    match secret with
    | none => .error noSecretErr
    | some s =>
      match deserialize tokenStr with
      | none => .error ⟨401, "Invalid or expired token: Invalid token", true⟩
      | some tok => verify_token_payload tok s now

/-- 403 raised by `verify_user_id_match` (auth.py lines 93–97). -/
def ownerMismatchErr : HttpError := ⟨403, "Access denied: user_id mismatch", false⟩

/-- `verify_user_id_match` (auth.py lines 79–97): the Access Guard. Exact
string comparison of the URL path owner against the token subject; 403 on
mismatch, silent success otherwise. -/
def verify_user_id_match (url_user_id token_user_id : String) :
    Except HttpError Unit :=
  if url_user_id ≠ token_user_id then .error ownerMismatchErr else .ok ()

namespace App

/- ### Data model and CRUD layer (models/models.py, models/task_crud.py). -/

/-- `Task` row (models/models.py): autoincrement `id`, owner `user_id`,
`title`, optional `description`, `completed` flag, and timestamps
(modelled as integers). -/
structure Task where
  id : Nat
  user_id : String
  title : String
  description : Option String
  completed : Bool
  created_at : Int
  updated_at : Int
deriving DecidableEq, Repr

/-- Row predicate of `select(Task).where(Task.id == task_id, Task.user_id == user_id)`. -/
def taskMatch (task_id : Nat) (user_id : String) (t : Task) : Bool :=
  t.id == task_id && t.user_id == user_id

/-- Validated create payload (schemas/task.py `TaskCreate`): only `title`
and `description`; the schema declares no owner field. -/
structure TaskCreate where
  title : String
  description : Option String
deriving DecidableEq, Repr

/-- Raw JSON body of a create request: optional `title` and `description`
members plus arbitrary further members (e.g. a spoofed `ownerSubject`),
which Pydantic ignores because `TaskCreate` declares no such field. -/
structure RawBody where
  title : Option String
  description : Option String
  extra : List (String × String)
deriving DecidableEq, Repr

/-- The `title` field validation of schemas/task.py `TaskBase`: length
bounds 1–255, then the `field_validator` rejects whitespace-only values and
returns the stripped title. -/
def validate_title (v : String) : Option String :=
  if v.length < 1 then none
  else if v.length > 255 then none
  else if pyStrip v.data = [] then none
  else some (String.mk (pyStrip v.data))

/-- Pydantic validation of a request body against schemas/task.py
`TaskCreate`: `title` required and validated, `description` optional with
max length 1000, unknown members (`extra`) ignored. -/
def parseTaskCreate (body : RawBody) : Option TaskCreate :=
  match body.title with
  | none => none
  | some t =>
    match validate_title t with
    | none => none
    | some t' =>
      match body.description with
      | none => some ⟨t', none⟩
      | some d => if d.length > 1000 then none else some ⟨t', some d⟩

/-- `create_task` (task_crud.py lines 7–30): builds a `Task` from the
validated payload with `user_id` taken from the function's `user_id`
argument and `completed=False`, inserts and returns it. The database
assigns `nextId` and stamps both timestamps with `now`. -/
def create_task (db : List Task) (task_data : TaskCreate) (user_id : String)
    (now : Int) (nextId : Nat) : List Task × Task :=
  let task : Task :=
    { id := nextId, user_id := user_id, title := task_data.title,
      description := task_data.description, completed := false,
      created_at := now, updated_at := now }
  (db ++ [task], task)

/-- `get_task_by_id` (task_crud.py lines 33–46): first row matching both
the id and the owner, if any. -/
def get_task_by_id (db : List Task) (task_id : Nat) (user_id : String) :
    Option Task :=
  db.find? (taskMatch task_id user_id)

/-- `get_tasks_by_user` (task_crud.py lines 49–61): all rows whose
`user_id` equals the given owner. -/
def get_tasks_by_user (db : List Task) (user_id : String) : List Task :=
  db.filter (fun t => t.user_id == user_id)

/-- `toggle_task_completion` (task_crud.py lines 122–150): locate the first
row matching id and owner; if none, the table is unchanged and `none` is
returned; otherwise that row's `completed` flag is negated in place, its
`updated_at` stamped with `now`, and the updated row returned. -/
def toggle_task_completion (db : List Task) (task_id : Nat) (user_id : String)
    (now : Int) : List Task × Option Task :=
  match db with
  | [] => ([], none)
  | t :: rest =>
    if taskMatch task_id user_id t then
      let t' : Task := { t with completed := !t.completed, updated_at := now }
      (t' :: rest, some t')
    else
      let r := toggle_task_completion rest task_id user_id now
      (t :: r.1, r.2)

/- ### Route handlers (routes/tasks.py). All begin with the Access Guard
comparing the `user_id` path segment against the token subject obtained
from `verify_token_payload`. -/

/-- 404 raised by the task routes (routes/tasks.py, e.g. lines 136–139). -/
def taskNotFoundErr : HttpError :=
  ⟨404, "Task not found or does not belong to user", false⟩

/-- `GET /api/{user_id}/tasks/` (`get_tasks`, routes/tasks.py lines 25–60):
verify the token, run the Access Guard, then list the user's tasks. -/
def get_tasks_route (user_id : String) (tok : Token) (secret : String)
    (now : Int) (db : List Task) : Except HttpError (List Task) :=
  match verify_token_payload tok secret now with
  | .error e => .error e
  | .ok token_user_id =>
    match verify_user_id_match user_id token_user_id with
    | .error e => .error e
    | .ok _ => .ok (get_tasks_by_user db user_id)

/-- `POST /api/{user_id}/tasks/` (`create_new_task`, routes/tasks.py lines
63–106): FastAPI validates the body against `TaskCreate` (422 on failure),
the token is verified, the Access Guard runs, and the task is created with
the path owner (equal to the token subject once the guard passed). -/
def create_new_task (user_id : String) (body : RawBody) (tok : Token)
    (secret : String) (now : Int) (db : List Task) (nextId : Nat) :
    Except HttpError (List Task × Task) :=
  match verify_token_payload tok secret now with
  | .error e => .error e
  | .ok token_user_id =>
    match parseTaskCreate body with
    | none => .error ⟨422, "Unprocessable Entity", false⟩
    | some task_data =>
      match verify_user_id_match user_id token_user_id with
      | .error e => .error e
      | .ok _ => .ok (create_task db task_data user_id now nextId)

/-- `GET /api/{user_id}/tasks/{task_id}` (`get_specific_task`,
routes/tasks.py lines 109–153): token, guard, owner-scoped lookup; a row
that is missing or foreign-owned yields the same 404. -/
def get_specific_task (user_id : String) (task_id : Nat) (tok : Token)
    (secret : String) (now : Int) (db : List Task) : Except HttpError Task :=
  match verify_token_payload tok secret now with
  | .error e => .error e
  | .ok token_user_id =>
    match verify_user_id_match user_id token_user_id with
    | .error e => .error e
    | .ok _ =>
      match get_task_by_id db task_id user_id with
      | none => .error taskNotFoundErr
      | some task => .ok task

/-- `PATCH /api/{user_id}/tasks/{task_id}/complete`
(`toggle_task_completion_status`, routes/tasks.py lines 273–306): token,
guard, toggle; `none` from the CRUD layer is reported as the 404. -/
def toggle_task_completion_status (user_id : String) (task_id : Nat)
    (tok : Token) (secret : String) (now : Int) (db : List Task) :
    Except HttpError (List Task × Task) :=
  match verify_token_payload tok secret now with
  | .error e => .error e
  | .ok token_user_id =>
    match verify_user_id_match user_id token_user_id with
    | .error e => .error e
    | .ok _ =>
      match toggle_task_completion db task_id user_id now with
      | (_, none) => .error taskNotFoundErr
      | (db', some task) => .ok (db', task)

/- ### Configuration and startup (config.py, main.py). -/

/-- `Settings` (config.py): the fields read by the auth core and startup.
(`CORS_ORIGINS` and `DEBUG` are outside every claim and omitted.) -/
structure Settings where
  DATABASE_URL : String
  BETTER_AUTH_SECRET : String
  JWT_ALGORITHM : String
  ACCESS_TOKEN_EXPIRE_MINUTES : Int
  REFRESH_TOKEN_EXPIRE_DAYS : Int
  SESSION_WARNING_THRESHOLD_MINUTES : Int
  JWT_LEEWAY_SECONDS : Int
  ALLOWED_CLOCK_SKEW_SECONDS : Int
deriving DecidableEq, Repr

/-- `os.getenv(key, default)` over an environment mapping. -/
def getenvD (env : String → Option String) (key default_ : String) : String :=
  (env key).getD default_

/-- Decimal digits to a number, accumulator style; `none` on a non-digit. -/
def digitsToNatGo : List Char → Nat → Option Nat
  | [], acc => some acc
  | c :: rest, acc =>
    if c.isDigit then digitsToNatGo rest (acc * 10 + (c.toNat - 48)) else none

/-- Decimal digit run to a number; `none` when empty or on a non-digit. -/
def digitsToNat (ds : List Char) : Option Nat :=
  if ds.isEmpty then none else digitsToNatGo ds 0

/-- Python `int(s)` on decimal strings: surrounding whitespace allowed,
optional sign, then digits; `none` models the `ValueError`. -/
def pyInt (s : String) : Option Int :=
  match pyStrip s.data with
  | '-' :: ds => (digitsToNat ds).map (fun n => -(n : Int))
  | '+' :: ds => (digitsToNat ds).map (fun n => (n : Int))
  | ds => (digitsToNat ds).map (fun n => (n : Int))

/-- `int(os.getenv(key, default))`: `none` models the `ValueError` that
would abort module import on an unparsable value. -/
def getenvInt (env : String → Option String) (key default_ : String) :
    Option Int :=
  pyInt (getenvD env key default_)

/-- `Settings.__init__` (config.py lines 11–32): environment variables with
their defaults; notably `BETTER_AUTH_SECRET` falls back to the placeholder
`"fallback-secret-for-testing"` and `JWT_LEEWAY_SECONDS` defaults to 10. -/
def Settings.ofEnv (env : String → Option String) : Option Settings := do
  let atem ← getenvInt env "ACCESS_TOKEN_EXPIRE_MINUTES" "60"
  let rted ← getenvInt env "REFRESH_TOKEN_EXPIRE_DAYS" "7"
  let swtm ← getenvInt env "SESSION_WARNING_THRESHOLD_MINUTES" "10"
  let leeway ← getenvInt env "JWT_LEEWAY_SECONDS" "10"
  let skew ← getenvInt env "ALLOWED_CLOCK_SKEW_SECONDS" "30"
  pure { DATABASE_URL := getenvD env "DATABASE_URL" ""
         BETTER_AUTH_SECRET := getenvD env "BETTER_AUTH_SECRET" "fallback-secret-for-testing"
         JWT_ALGORITHM := getenvD env "JWT_ALGORITHM" "HS256"
         ACCESS_TOKEN_EXPIRE_MINUTES := atem
         REFRESH_TOKEN_EXPIRE_DAYS := rted
         SESSION_WARNING_THRESHOLD_MINUTES := swtm
         JWT_LEEWAY_SECONDS := leeway
         ALLOWED_CLOCK_SKEW_SECONDS := skew }

/-- Warning logged by `lifespan` (main.py lines 26–27) for an unset or
placeholder auth secret. -/
def fallbackSecretWarning : String :=
  "Using fallback auth secret. Please set BETTER_AUTH_SECRET environment variable."

/-- Startup validation of `lifespan` (main.py lines 19–39): a missing or
placeholder `BETTER_AUTH_SECRET` only logs a warning; the only fatal
condition is an empty `DATABASE_URL` (`ValueError`). On success the list of
logged warnings is returned. -/
def lifespan_startup (s : Settings) : Except String (List String) :=
  let warnings :=
    if s.BETTER_AUTH_SECRET = "" ∨ s.BETTER_AUTH_SECRET = "fallback-secret-for-testing" then
      [fallbackSecretWarning]
    else []
  if s.DATABASE_URL = "" then
    .error "DATABASE_URL environment variable is required"
  else
    .ok warnings


end App

namespace App

/- ### Helper lemmas shared across claims. -/

/-- A correctly signed HS256 token with a future `exp` and a nonempty `sub`
verifies to its subject. -/
theorem verify_token_payload_valid (tok : Token) (secret U : String)
    (now e : Int) (hsig : tok.signedWith = secret) (halg : tok.alg = "HS256")
    (hexp : tok.exp = some e) (hfresh : now < e) (hsub : tok.sub = some U)
    (hne : U ≠ "") : verify_token_payload tok secret now = .ok U := by
  have hnotle : ¬ (e ≤ now) := by omega
  unfold verify_token_payload jwtDecode
  rw [halg, hsig, hexp]
  simp [hnotle, hsub, hne]

/-- C1: a valid unexpired token with subject `U` passes the Access Guard on
`/api/U/tasks` (the listing succeeds with the owner-filtered result), while
for every `V ≠ U` the request to `/api/V/tasks` is denied with the 403
owner-mismatch error; the guard's comparison is exact string equality
(case-sensitive, no normalization): it allows precisely when the two ids
are equal. -/
theorem C1_access_guard (U secret : String) (tok : Token) (now e : Int)
    (db : List Task) (hsig : tok.signedWith = secret)
    (halg : tok.alg = "HS256") (hexp : tok.exp = some e) (hfresh : now < e)
    (hsub : tok.sub = some U) (hne : U ≠ "") :
    get_tasks_route U tok secret now db = .ok (get_tasks_by_user db U) ∧
    (∀ V, V ≠ U →
      get_tasks_route V tok secret now db = .error ownerMismatchErr) ∧
    (∀ a b : String, verify_user_id_match a b = .ok () ↔ a = b) := by
  have hv := verify_token_payload_valid tok secret U now e hsig halg hexp hfresh hsub hne
  refine ⟨?_, ?_, ?_⟩
  · simp [get_tasks_route, hv, verify_user_id_match]
  · intro V hV
    simp [get_tasks_route, hv, verify_user_id_match, hV]
  · intro a b
    by_cases hab : a = b <;> simp [verify_user_id_match, hab]

/-- Witness for C1 at a concrete token for `user-123` and an empty table. -/
theorem C1_access_guard_witness :
    get_tasks_route "user-123"
      ⟨"s3cret", "HS256", some "user-123", none, some 2000, none⟩
      "s3cret" 1000 [] = .ok [] ∧
    get_tasks_route "user-456"
      ⟨"s3cret", "HS256", some "user-123", none, some 2000, none⟩
      "s3cret" 1000 [] = .error ownerMismatchErr := by
  have h := C1_access_guard "user-123" "s3cret"
    ⟨"s3cret", "HS256", some "user-123", none, some 2000, none⟩
    1000 2000 [] rfl rfl rfl (by norm_num) rfl (by decide)
  exact ⟨h.1, h.2.1 "user-456" (by decide)⟩

/-- C3: listing tasks for subject `U` returns exactly the stored tasks whose
`user_id` is `U`: membership in the result is equivalent to membership in
the table together with ownership by `U`, for any population of tasks. -/
theorem C3_list_isolation (db : List Task) (U : String) (t : Task) :
    t ∈ get_tasks_by_user db U ↔ t ∈ db ∧ t.user_id = U := by
  simp [get_tasks_by_user, List.mem_filter]

end App

namespace App

/-- C6: a token signed with any secret other than the configured one, or
whose header declares any algorithm other than HS256 (including "none"),
fails verification with one of the two `InvalidTokenError` failures
(algorithm rejection or signature rejection), surfaced as a 401 —
regardless of the token's payload content. -/
theorem C6_algorithm_and_secret_pinning (tok : Token) (secret : String)
    (now : Int) (h : tok.signedWith ≠ secret ∨ tok.alg ≠ "HS256") :
    ∃ e : JwtError, (e = .invalidAlgorithm ∨ e = .invalidSignature) ∧
      verify_token_payload tok secret now = .error (invalidTokenErr e) ∧
      (invalidTokenErr e).status = 401 := by
  unfold verify_token_payload jwtDecode
  by_cases halg : tok.alg = "HS256"
  · have hsig : tok.signedWith ≠ secret := by
      rcases h with h | h
      · exact h
      · exact absurd halg h
    exact ⟨.invalidSignature, Or.inr rfl, by simp [halg, hsig], rfl⟩
  · exact ⟨.invalidAlgorithm, Or.inl rfl, by simp [halg], rfl⟩

/-- Witness for C6 at an unsigned ("none"-algorithm) token. -/
theorem C6_algorithm_and_secret_pinning_witness :
    ∃ e : JwtError, (e = .invalidAlgorithm ∨ e = .invalidSignature) ∧
      verify_token_payload ⟨"s3cret", "none", some "user-123", none, some 2000, none⟩
        "s3cret" 1000 = .error (invalidTokenErr e) ∧
      (invalidTokenErr e).status = 401 :=
  C6_algorithm_and_secret_pinning
    ⟨"s3cret", "none", some "user-123", none, some 2000, none⟩
    "s3cret" 1000 (Or.inr (by decide))

/-- A correctly signed, unexpired token without a usable subject (absent or
empty `sub`) fails verification with the missing-subject 401. -/
theorem verify_token_payload_missing_sub (tok : Token) (secret : String)
    (now e : Int) (hsig : tok.signedWith = secret) (halg : tok.alg = "HS256")
    (hexp : tok.exp = some e) (hfresh : now < e)
    (hsub : tok.sub = none ∨ tok.sub = some "") :
    verify_token_payload tok secret now = .error missingSubErr := by
  have hnotle : ¬ (e ≤ now) := by omega
  unfold verify_token_payload jwtDecode
  rw [halg, hsig, hexp]
  rcases hsub with hsub | hsub <;> simp [hnotle, hsub]

/-- C7: a correctly signed, unexpired token whose payload lacks a `sub`
claim (or carries an empty one) makes every modelled protected route fail
with the missing-subject 401, uniformly in the path owner and all other
request data — so the Access Guard comparison is never reached. -/
theorem C7_missing_sub_never_reaches_guard (tok : Token) (secret : String)
    (now e : Int) (db : List Task) (hsig : tok.signedWith = secret)
    (halg : tok.alg = "HS256") (hexp : tok.exp = some e) (hfresh : now < e)
    (hsub : tok.sub = none ∨ tok.sub = some "") :
    (∀ url, get_tasks_route url tok secret now db = .error missingSubErr) ∧
    (∀ url body nextId,
      create_new_task url body tok secret now db nextId = .error missingSubErr) ∧
    (∀ url task_id,
      get_specific_task url task_id tok secret now db = .error missingSubErr) ∧
    (∀ url task_id,
      toggle_task_completion_status url task_id tok secret now db =
        .error missingSubErr) ∧
    missingSubErr.status = 401 := by
  have hv := verify_token_payload_missing_sub tok secret now e hsig halg hexp hfresh hsub
  refine ⟨?_, ?_, ?_, ?_, rfl⟩
  · intro url
    simp [get_tasks_route, hv]
  · intro url body nextId
    simp [create_new_task, hv]
  · intro url task_id
    simp [get_specific_task, hv]
  · intro url task_id
    simp [toggle_task_completion_status, hv]

/-- Witness for C7 at a concrete sub-less token: even a request whose path
owner would never match yields the 401, not the guard's 403. -/
theorem C7_missing_sub_never_reaches_guard_witness :
    get_tasks_route "user-123"
      ⟨"s3cret", "HS256", none, some "a@b.c", some 2000, none⟩
      "s3cret" 1000 [] = .error missingSubErr ∧
    get_specific_task "user-456" 7
      ⟨"s3cret", "HS256", none, some "a@b.c", some 2000, none⟩
      "s3cret" 1000 [] = .error missingSubErr := by
  have h := C7_missing_sub_never_reaches_guard
    ⟨"s3cret", "HS256", none, some "a@b.c", some 2000, none⟩
    "s3cret" 1000 2000 [] rfl rfl rfl (by norm_num) (Or.inl rfl)
  exact ⟨h.1 "user-123", h.2.2.1 "user-456" 7⟩

/-- C8: for an authenticated subject `U`, the response of
`GET /api/U/tasks/{t}` is the same 404 (same status, same body) whether no
task with id `t` exists at all or every task with id `t` is owned by
someone other than `U`: the two runs are indistinguishable. -/
theorem C8_404_indistinguishability (U secret : String) (tok : Token)
    (now e : Int) (t : Nat) (db₁ db₂ : List Task)
    (hsig : tok.signedWith = secret) (halg : tok.alg = "HS256")
    (hexp : tok.exp = some e) (hfresh : now < e) (hsub : tok.sub = some U)
    (hne : U ≠ "") (h₁ : ∀ task ∈ db₁, task.id ≠ t)
    (h₂ : ∀ task ∈ db₂, task.id = t → task.user_id ≠ U) :
    get_specific_task U t tok secret now db₁ = .error taskNotFoundErr ∧
    get_specific_task U t tok secret now db₂ = .error taskNotFoundErr ∧
    get_specific_task U t tok secret now db₁ =
      get_specific_task U t tok secret now db₂ := by
  have hv := verify_token_payload_valid tok secret U now e hsig halg hexp hfresh hsub hne
  have hf₁ : get_task_by_id db₁ t U = none := by
    rw [get_task_by_id, List.find?_eq_none]
    intro task htask
    simp only [taskMatch, Bool.and_eq_true, beq_iff_eq, not_and]
    intro hid
    exact absurd hid (h₁ task htask)
  have hf₂ : get_task_by_id db₂ t U = none := by
    rw [get_task_by_id, List.find?_eq_none]
    intro task htask
    simp only [taskMatch, Bool.and_eq_true, beq_iff_eq, not_and]
    intro hid
    exact h₂ task htask hid
  refine ⟨?_, ?_, ?_⟩ <;>
    simp [get_specific_task, hv, verify_user_id_match, hf₁, hf₂]

/-- Witness for C8: an empty table versus a table holding task 7 owned by
`user-456`, queried by `user-123`, give the same 404. -/
theorem C8_404_indistinguishability_witness :
    get_specific_task "user-123" 7
      ⟨"s3cret", "HS256", some "user-123", none, some 2000, none⟩
      "s3cret" 1000 [] = .error taskNotFoundErr ∧
    get_specific_task "user-123" 7
      ⟨"s3cret", "HS256", some "user-123", none, some 2000, none⟩
      "s3cret" 1000 [⟨7, "user-456", "T", none, false, 0, 0⟩] =
      .error taskNotFoundErr := by
  have h := C8_404_indistinguishability "user-123" "s3cret"
    ⟨"s3cret", "HS256", some "user-123", none, some 2000, none⟩
    1000 2000 7 [] [⟨7, "user-456", "T", none, false, 0, 0⟩]
    rfl rfl rfl (by norm_num) rfl (by decide)
    (by intro task htask; simp at htask)
    (by intro task htask hid; simp at htask; rw [htask]; decide)
  exact ⟨h.1, h.2.1⟩

end App

namespace App

/-- C2: any successful creation through `POST /api/{user_id}/tasks/` with a
token for subject `U` yields a task stored and returned with owner `U` —
for every request body, including bodies carrying a spoofed owner member
(`TaskCreate` declares no owner field, so any such member is ignored, and
`create_task` stamps `user_id` from the authenticated identity). -/
theorem C2_owner_stamping (U secret : String) (tok : Token) (now e : Int)
    (body : RawBody) (db : List Task) (nextId : Nat)
    (hsig : tok.signedWith = secret) (halg : tok.alg = "HS256")
    (hexp : tok.exp = some e) (hfresh : now < e) (hsub : tok.sub = some U)
    (hne : U ≠ "") :
    ∀ P db' task,
      create_new_task P body tok secret now db nextId = .ok (db', task) →
      task.user_id = U ∧ task ∈ db' := by
  have hv := verify_token_payload_valid tok secret U now e hsig halg hexp hfresh hsub hne
  intro P db' task h
  unfold create_new_task at h
  rw [hv] at h
  cases hparse : parseTaskCreate body with
  | none => rw [hparse] at h; cases h
  | some task_data =>
    rw [hparse] at h
    dsimp only at h
    by_cases hP : P = U
    · subst hP
      have hguard : verify_user_id_match P P = .ok () := by
        simp [verify_user_id_match]
      rw [hguard] at h
      simp only [create_task] at h
      injection h with hpair
      injection hpair with hdb htask
      subst hdb
      subst htask
      exact ⟨rfl, by simp⟩
    · have hguard : verify_user_id_match P U = .error ownerMismatchErr := by
        simp [verify_user_id_match, hP]
      rw [hguard] at h
      cases h

/-- Witness for C2, the spec's concrete scenario E: `user-123` posts a body
whose extra member `ownerSubject` is `user-456`; the stored and returned
task is owned by `user-123`. -/
theorem C2_owner_stamping_witness :
    create_new_task "user-123" ⟨some "T", none, [("ownerSubject", "user-456")]⟩
      ⟨"s3cret", "HS256", some "user-123", none, some 2000, none⟩
      "s3cret" 1000 [] 1 =
      .ok ([⟨1, "user-123", "T", none, false, 1000, 1000⟩],
        ⟨1, "user-123", "T", none, false, 1000, 1000⟩) ∧
    (⟨1, "user-123", "T", none, false, 1000, 1000⟩ : Task).user_id =
      "user-123" := by
  have heq : create_new_task "user-123"
      ⟨some "T", none, [("ownerSubject", "user-456")]⟩
      ⟨"s3cret", "HS256", some "user-123", none, some 2000, none⟩
      "s3cret" 1000 [] 1 =
      .ok ([⟨1, "user-123", "T", none, false, 1000, 1000⟩],
        ⟨1, "user-123", "T", none, false, 1000, 1000⟩) := by rfl
  have h := C2_owner_stamping "user-123" "s3cret"
    ⟨"s3cret", "HS256", some "user-123", none, some 2000, none⟩
    1000 2000 ⟨some "T", none, [("ownerSubject", "user-456")]⟩ [] 1
    rfl rfl rfl (by norm_num) rfl (by decide) "user-123"
    [⟨1, "user-123", "T", none, false, 1000, 1000⟩]
    ⟨1, "user-123", "T", none, false, 1000, 1000⟩ heq
  exact ⟨heq, h.1⟩

/-- The toggle returns `none` exactly when the owner-scoped lookup finds
nothing. -/
theorem toggle_none_iff (db : List Task) (tid : Nat) (uid : String)
    (now : Int) :
    (toggle_task_completion db tid uid now).2 = none ↔
      db.find? (taskMatch tid uid) = none := by
  induction db with
  | nil => simp [toggle_task_completion]
  | cons t rest ih =>
    by_cases h : taskMatch tid uid t
    · simp [toggle_task_completion, h, List.find?_cons_of_pos]
    · simp [toggle_task_completion, h, List.find?_cons_of_neg, ih]

/-- When the owner-scoped lookup finds `t`, the toggle returns `t` with its
flag negated and timestamp refreshed, and that updated row is what the next
owner-scoped lookup finds. -/
theorem toggle_found (db : List Task) (tid : Nat) (uid : String) (now : Int)
    (t : Task) (h : db.find? (taskMatch tid uid) = some t) :
    (toggle_task_completion db tid uid now).2 =
      some { t with completed := !t.completed, updated_at := now } ∧
    (toggle_task_completion db tid uid now).1.find? (taskMatch tid uid) =
      some { t with completed := !t.completed, updated_at := now } := by
  induction db with
  | nil => simp [List.find?] at h
  | cons t₀ rest ih =>
    by_cases h₀ : taskMatch tid uid t₀
    · have ht : t₀ = t := by
        rw [List.find?_cons_of_pos _ h₀] at h
        exact Option.some_inj.mp h
      subst ht
      have h₀' : taskMatch tid uid
          { t₀ with completed := !t₀.completed, updated_at := now } = true := by
        simpa [taskMatch] using h₀
      constructor
      · simp [toggle_task_completion, h₀]
      · simp [toggle_task_completion, h₀, List.find?_cons_of_pos _ h₀']
    · rw [List.find?_cons_of_neg _ h₀] at h
      obtain ⟨ih₁, ih₂⟩ := ih h
      constructor
      · simpa [toggle_task_completion, h₀] using ih₁
      · simpa [toggle_task_completion, h₀, List.find?_cons_of_neg _ h₀]
          using ih₂

/-- C10: toggling yields `none` (reported by the route as the 404) exactly
when the user owns no task with that id; when the lookup finds `t`, the
result is `t` with `completed` negated and `updated_at` refreshed while
`id`, `user_id`, `title`, `description` and `created_at` are unchanged; and
toggling again restores the original `completed` value. -/
theorem C10_toggle_completion (db : List Task) (tid : Nat) (uid : String)
    (now now₂ : Int) :
    ((toggle_task_completion db tid uid now).2 = none ↔
      ∀ t ∈ db, ¬(t.id = tid ∧ t.user_id = uid)) ∧
    (∀ t, db.find? (taskMatch tid uid) = some t →
      (toggle_task_completion db tid uid now).2 =
        some { t with completed := !t.completed, updated_at := now } ∧
      (toggle_task_completion (toggle_task_completion db tid uid now).1
          tid uid now₂).2 = some { t with updated_at := now₂ }) ∧
    (∀ tok secret, verify_token_payload tok secret now = .ok uid →
      (toggle_task_completion db tid uid now).2 = none →
      toggle_task_completion_status uid tid tok secret now db =
        .error taskNotFoundErr) := by
  refine ⟨?_, ?_, ?_⟩
  · rw [toggle_none_iff, List.find?_eq_none]
    constructor
    · intro h t ht
      have := h t ht
      simpa [taskMatch] using this
    · intro h t ht
      simpa [taskMatch] using h t ht
  · intro t h
    obtain ⟨h₁, h₂⟩ := toggle_found db tid uid now t h
    refine ⟨h₁, ?_⟩
    obtain ⟨h₃, _⟩ := toggle_found _ tid uid now₂ _ h₂
    rw [h₃]
    simp
  · intro tok secret hv hnone
    rcases htog : toggle_task_completion db tid uid now with ⟨db', r⟩
    rw [htog] at hnone
    simp only at hnone
    subst hnone
    simp [toggle_task_completion_status, hv, verify_user_id_match, htog]

/-- Witness for C10: toggling task 1 of `u` twice restores the `completed`
flag while refreshing only `updated_at`. -/
theorem C10_toggle_completion_witness :
    (toggle_task_completion [⟨1, "u", "T", none, false, 0, 0⟩] 1 "u" 5).2 =
      some ⟨1, "u", "T", none, true, 0, 5⟩ ∧
    (toggle_task_completion
      (toggle_task_completion [⟨1, "u", "T", none, false, 0, 0⟩] 1 "u" 5).1
      1 "u" 9).2 = some ⟨1, "u", "T", none, false, 0, 9⟩ := by
  have h := (C10_toggle_completion [⟨1, "u", "T", none, false, 0, 0⟩]
    1 "u" 5 9).2.1 ⟨1, "u", "T", none, false, 0, 0⟩ (by decide)
  exact ⟨h.1, h.2⟩

end App

/- ### Header-grammar claims (top-level string layer). -/

/-- Removing `"Bearer "` occurrences from a string that starts with the
marker first consumes that leading marker. -/
theorem replaceBearer_marker_append (t : List Char) :
    replaceBearer (bearerMarker ++ t) = replaceBearer t := rfl

/-- A string without any `"Bearer "` occurrence is left unchanged by the
replacement. -/
theorem replaceBearer_of_not_contains (t : List Char)
    (h : containsBearer t = false) : replaceBearer t = t := by
  induction t using replaceBearer.induct with
  | case1 rest ih =>
    exfalso
    simp [containsBearer, bearerMarker, List.isPrefixOf] at h
  | case2 c rest hne ih =>
    have h2 : containsBearer rest = false := by
      simp [containsBearer] at h
      exact h.2
    have hr : replaceBearer (c :: rest) = c :: replaceBearer rest := by
      rw [replaceBearer]
      exact hne
    rw [hr, ih h2]
  | case3 => rfl

/-- Stripping leaves a string whose first and last characters are
non-whitespace unchanged. -/
theorem pyStrip_of_no_edge_space (t : List Char)
    (hh : ∀ c, t.head? = some c → isPySpace c = false)
    (hl : ∀ c, t.getLast? = some c → isPySpace c = false) :
    pyStrip t = t := by
  cases t with
  | nil => rfl
  | cons c rest =>
    have hc : isPySpace c = false := hh c rfl
    unfold pyStrip
    rw [List.dropWhile_cons, hc]
    simp only [Bool.false_eq_true, if_false]
    rcases hrev : (c :: rest).reverse with _ | ⟨d, r⟩
    · exact absurd hrev (by simp)
    · have hd : isPySpace d = false := by
        apply hl
        rw [← List.head?_reverse, hrev]
        rfl
      rw [List.dropWhile_cons, hd]
      simp only [Bool.false_eq_true, if_false]
      rw [← hrev, List.reverse_reverse]

/-- C4 (amended): the code does not implement the case-insensitive
two-token grammar. A header that does not begin with the exact,
case-sensitive prefix `"Bearer "` is rejected as malformed with a 401 by
both the route dependency and the middleware; and for a header
`"Bearer " ++ t` whose remainder `t` contains no further `"Bearer "`
occurrence and no leading or trailing whitespace, the token handed to
verification by the dependency is exactly `t` (in general it is the header
with every `"Bearer "` occurrence removed and then stripped — not the
second whitespace-separated token). -/
theorem C4_header_parsing_amended (s t : List Char) :
    (listStartsWith bearerMarker s = false →
      extract_token s = .error malformedHeaderErr ∧
      middleware_extract (some s) = .error mwHeaderErr) ∧
    (t ≠ [] → containsBearer t = false →
      (∀ c, t.head? = some c → isPySpace c = false) →
      (∀ c, t.getLast? = some c → isPySpace c = false) →
      extract_token (bearerMarker ++ t) = .ok t) := by
  constructor
  · intro h
    exact ⟨by simp [extract_token, h], by simp [middleware_extract, h]⟩
  · intro hne hocc hh hl
    have hpre : listStartsWith bearerMarker (bearerMarker ++ t) = true := by
      simp [listStartsWith, List.isPrefixOf_iff_prefix]
    have h1 : replaceBearer (bearerMarker ++ t) = t := by
      rw [replaceBearer_marker_append, replaceBearer_of_not_contains t hocc]
    simp only [extract_token, hpre, if_true, h1,
      pyStrip_of_no_edge_space t hh hl]
    rw [if_neg hne]

/-- Witness for the amended C4: a non-`Bearer` header is rejected by both
layers, and `"Bearer abc123"` yields exactly the token `abc123`. -/
theorem C4_header_parsing_amended_witness :
    (extract_token ("Token abc".data) = .error malformedHeaderErr ∧
      middleware_extract (some ("Token abc".data)) = .error mwHeaderErr) ∧
    extract_token ("Bearer abc123".data) = .ok ("abc123".data) := by
  have h₁ := (C4_header_parsing_amended ("Token abc".data) []).1 (by decide)
  have h₂ := (C4_header_parsing_amended [] ("abc123".data)).2 (by decide)
    (by decide)
    (by intro c hc; simp at hc; rw [← hc]; decide)
    (by intro c hc; simp at hc; rw [← hc]; decide)
  exact ⟨h₁, h₂⟩

/-- C4 counterexample: the header `"bearer tok"` consists of exactly two
whitespace-separated tokens with a case-insensitive match on the scheme, so
per the claim the extraction should succeed with token `tok`; the code
(both the route dependency and the middleware) rejects it as malformed with
a 401 because the prefix check is case-sensitive. -/
theorem C4_header_parsing_counterexample :
    specWellFormedBearer ("bearer tok".data) = true ∧
    specSecondToken ("bearer tok".data) = some ("tok".data) ∧
    extract_token ("bearer tok".data) = .error malformedHeaderErr ∧
    middleware_extract (some ("bearer tok".data)) = .error mwHeaderErr :=
  ⟨rfl, rfl, rfl, rfl⟩

namespace App

/-- C5 counterexample: with the default configuration the configured leeway
is `JWT_LEEWAY_SECONDS = 10`, yet a correctly signed token whose `exp` lies
1 to 10 seconds in the past — inside the configured leeway window — is
rejected as expired, because the code never passes any leeway to the
decoder (PyJWT's default is 0). Here `exp = 995` at `now = 1000`. -/
theorem C5_leeway_counterexample :
    (Settings.ofEnv (fun _ => none)).map Settings.JWT_LEEWAY_SECONDS =
      some 10 ∧
    verify_token_payload
      ⟨"fallback-secret-for-testing", "HS256", some "user-123", none,
        some 995, none⟩
      "fallback-secret-for-testing" 1000 =
      .error (invalidTokenErr .expiredSignature) ∧
    (1000 : Int) - 10 < 995 ∧ (995 : Int) ≤ 1000 :=
  ⟨rfl, rfl, by norm_num, by norm_num⟩

/-- C5 (amended): verification applies no clock-skew leeway (the configured
`JWT_LEEWAY_SECONDS` is never passed to the decoder): a correctly signed
HS256 token whose `exp` is at or before the current time fails with the
token-expired 401, and one whose `exp` is strictly in the future is never
rejected as expired. -/
theorem C5_zero_leeway_expiry (tok : Token) (secret : String) (now e : Int)
    (hsig : tok.signedWith = secret) (halg : tok.alg = "HS256")
    (hexp : tok.exp = some e) :
    (e ≤ now →
      verify_token_payload tok secret now =
        .error (invalidTokenErr .expiredSignature) ∧
      (invalidTokenErr .expiredSignature).status = 401) ∧
    (now < e →
      verify_token_payload tok secret now ≠
        .error (invalidTokenErr .expiredSignature)) := by
  constructor
  · intro hle
    refine ⟨?_, rfl⟩
    unfold verify_token_payload jwtDecode
    rw [halg, hsig, hexp]
    simp [hle]
  · intro hfresh
    cases hsub : tok.sub with
    | none =>
      rw [verify_token_payload_missing_sub tok secret now e hsig halg hexp
        hfresh (Or.inl hsub)]
      simp [missingSubErr, invalidTokenErr, jwtErrMsg]
    | some uid =>
      by_cases huid : uid = ""
      · subst huid
        rw [verify_token_payload_missing_sub tok secret now e hsig halg hexp
          hfresh (Or.inr hsub)]
        simp [missingSubErr, invalidTokenErr, jwtErrMsg]
      · rw [verify_token_payload_valid tok secret uid now e hsig halg hexp
          hfresh hsub huid]
        simp

/-- Witness for the amended C5: a token expired by one second is rejected
as expired; the same token one second before expiry is not. -/
theorem C5_zero_leeway_expiry_witness :
    verify_token_payload
      ⟨"s3cret", "HS256", some "user-123", none, some 999, none⟩
      "s3cret" 1000 = .error (invalidTokenErr .expiredSignature) ∧
    verify_token_payload
      ⟨"s3cret", "HS256", some "user-123", none, some 1001, none⟩
      "s3cret" 1000 ≠ .error (invalidTokenErr .expiredSignature) := by
  have h₁ := (C5_zero_leeway_expiry
    ⟨"s3cret", "HS256", some "user-123", none, some 999, none⟩
    "s3cret" 1000 999 rfl rfl rfl).1 (by norm_num)
  have h₂ := (C5_zero_leeway_expiry
    ⟨"s3cret", "HS256", some "user-123", none, some 1001, none⟩
    "s3cret" 1000 1001 rfl rfl rfl).2 (by norm_num)
  exact ⟨h₁.1, h₂⟩

/-- C9 counterexample: with `DATABASE_URL` set and `BETTER_AUTH_SECRET`
unset, the effective secret is the placeholder
`"fallback-secret-for-testing"` — 27 characters, below the required
32 — yet startup succeeds, merely logging the fallback warning: weak-secret
configurations are not fatal. -/
theorem C9_startup_counterexample :
    (Settings.ofEnv
        (fun k => if k = "DATABASE_URL" then some "postgresql://db" else none)).map
        (fun s => (s.BETTER_AUTH_SECRET, s.BETTER_AUTH_SECRET.length,
          lifespan_startup s)) =
      some ("fallback-secret-for-testing", 27, .ok [fallbackSecretWarning]) ∧
    27 < 32 :=
  ⟨rfl, by norm_num⟩

/-- C9 (amended): startup is fatal exactly when `DATABASE_URL` is empty; an
unset, short, or placeholder signing secret is not fatal — when
`DATABASE_URL` is set and the secret is the fallback placeholder, startup
succeeds and only logs the fallback warning. -/
theorem C9_startup_policy (s : Settings) :
    ((lifespan_startup s).isOk ↔ s.DATABASE_URL ≠ "") ∧
    (s.DATABASE_URL ≠ "" →
      s.BETTER_AUTH_SECRET = "fallback-secret-for-testing" →
      lifespan_startup s = .ok [fallbackSecretWarning]) := by
  constructor
  · by_cases hdb : s.DATABASE_URL = "" <;>
      simp [lifespan_startup, hdb, Except.isOk, Except.toBool]
  · intro hdb hsec
    simp [lifespan_startup, hdb, hsec]

/-- Witness for the amended C9 at the default-environment settings with a
database URL. -/
theorem C9_startup_policy_witness :
    lifespan_startup
      ⟨"postgresql://db", "fallback-secret-for-testing", "HS256",
        60, 7, 10, 10, 30⟩ = .ok [fallbackSecretWarning] :=
  (C9_startup_policy
    ⟨"postgresql://db", "fallback-secret-for-testing", "HS256",
      60, 7, 10, 10, 30⟩).2 (by decide) rfl

end App
